import Mathlib

/-!
Shallow embedding of the Settings & Credential Persistence Manager of the
Synapse desktop launcher (src-tauri/src/settings/{types,mod,error}.rs and
src-tauri/src/commands/{mod,settings}.rs).

Conventions of the embedding:
* Rust `u32` fields become `Nat`; where a claim depends on the `u32` range
  the bound `< 2^32` is carried as an explicit hypothesis.
* Rust `f32` temperature becomes `Rat`: every finite f32 is an exact
  rational, the validator only compares temperatures with `<` and `>`,
  and those comparisons on finite floats agree with the rational order.
* `HashMap<String, String>` becomes an association list
  `List (String × String)`; map equality is list equality here, which
  refines the map-level equality of the source.
* JSON is modelled as a tree (`Json` below): serde_json's text layer
  (escaping, number printing) is below the level of these claims.
* Effects (file system, keyring vault) are modelled by explicit state
  passing plus a log of the operations performed.
-/

namespace Synapse

/-! ## Substring containment (Rust `str::contains`) -/

/-- `leadMatch pat s` is true when `pat` is an initial run of `s`. -/
def leadMatch : List Char → List Char → Bool
  | [], _ => true
  | _ :: _, [] => false
  | p :: ps, c :: cs => p == c && leadMatch ps cs

/-- `subListAt pat s` is true when `pat` occurs contiguously in `s`. -/
def subListAt : List Char → List Char → Bool
  | pat, [] => pat.isEmpty
  | pat, c :: cs => leadMatch pat (c :: cs) || subListAt pat cs

/-- Rust `s.contains(pat)`: substring search. -/
def strContains (s pat : String) : Bool :=
  subListAt pat.toList s.toList

/-! ## Data model (settings/types.rs) -/

/-- `Theme` enum (serde rename_all = "lowercase"). -/
inductive Theme where
  | Light
  | Dark
  | System
deriving DecidableEq, Repr

/-- `StartupBehavior` enum (serde rename_all = "lowercase"). -/
inductive StartupBehavior where
  | Normal
  | Minimized
  | Hidden
deriving DecidableEq, Repr

/-- `KeyboardShortcuts` struct; `custom_shortcuts: HashMap<String, String>`
is embedded as an association list. -/
structure KeyboardShortcuts where
  toggle_window : String
  clear_conversation : String
  new_conversation : String
  custom_shortcuts : List (String × String)
deriving DecidableEq, Repr

/-- `OpenAIConfig` struct; `temperature: f32` is embedded as `Rat`. -/
structure OpenAIConfig where
  model : String
  temperature : Rat
  max_tokens : Nat
deriving DecidableEq, Repr

/-- `AnthropicConfig` struct. -/
structure AnthropicConfig where
  model : String
  temperature : Rat
  max_tokens : Nat
deriving DecidableEq, Repr

/-- `AIProviderSettings` struct: optional per-provider configuration. -/
structure AIProviderSettings where
  openai : Option OpenAIConfig
  anthropic : Option AnthropicConfig
deriving DecidableEq, Repr

/-- `AppPreferences` struct. -/
structure AppPreferences where
  window_width : Nat
  window_height : Nat
  theme : Theme
  startup_behavior : StartupBehavior
  keyboard_shortcuts : KeyboardShortcuts
deriving DecidableEq, Repr

/-- `Settings` root aggregate. -/
structure Settings where
  preferences : AppPreferences
  ai_providers : AIProviderSettings
deriving DecidableEq, Repr

/-! ## Defaults (settings/types.rs `Default` impls) -/

/-- `KeyboardShortcuts::default()`. -/
def KeyboardShortcuts.default : KeyboardShortcuts where
  toggle_window := "CommandOrControl+Shift+Space"
  clear_conversation := "CommandOrControl+L"
  new_conversation := "CommandOrControl+N"
  custom_shortcuts := [("settings", "CommandOrControl+,")]

/-- `AppPreferences::default()`. -/
def AppPreferences.default : AppPreferences where
  window_width := 800
  window_height := 600
  theme := Theme.System
  startup_behavior := StartupBehavior.Normal
  keyboard_shortcuts := KeyboardShortcuts.default

/-- `AIProviderSettings::default()`. -/
def AIProviderSettings.default : AIProviderSettings where
  openai := none
  anthropic := none

/-- `Settings::default()`. -/
def Settings.default : Settings where
  preferences := AppPreferences.default
  ai_providers := AIProviderSettings.default

/-! ## Validation (settings/types.rs `Validate` impls) -/

/-- The `validate_shortcut` closure inside `Validate for KeyboardShortcuts`:
a shortcut is rejected unless it contains `"CommandOrControl"` or `"Alt"`. -/
def validate_shortcut (shortcut : String) : Except String Unit :=
  if !(strContains shortcut "CommandOrControl") && !(strContains shortcut "Alt") then
    Except.error ("Invalid shortcut format: " ++ shortcut)
  else
    Except.ok ()

/-- The `for (_, shortcut) in &self.custom_shortcuts` loop: each custom
shortcut is validated in turn, the first failure is returned. -/
def validateCustomShortcuts : List (String × String) → Except String Unit
  | [] => Except.ok ()
  | p :: rest =>
    match validate_shortcut p.2 with
    | Except.error e => Except.error e
    | Except.ok _ => validateCustomShortcuts rest

/-- `Validate for KeyboardShortcuts`. -/
def KeyboardShortcuts.validate (k : KeyboardShortcuts) : Except String Unit :=
  match validate_shortcut k.toggle_window with
  | Except.error e => Except.error e
  | Except.ok _ =>
    match validate_shortcut k.clear_conversation with
    | Except.error e => Except.error e
    | Except.ok _ =>
      match validate_shortcut k.new_conversation with
      | Except.error e => Except.error e
      | Except.ok _ => validateCustomShortcuts k.custom_shortcuts

/-- `Validate for AppPreferences`. -/
def AppPreferences.validate (p : AppPreferences) : Except String Unit :=
  if p.window_width < 400 then
    Except.error "Window width must be at least 400 pixels"
  else if p.window_height < 300 then
    Except.error "Window height must be at least 300 pixels"
  else
    p.keyboard_shortcuts.validate

/-- Second half of `Validate for AIProviderSettings`: the anthropic check. -/
def AIProviderSettings.validateAnthropicPart (a : AIProviderSettings) : Except String Unit :=
  match a.anthropic with
  | some c =>
    if c.temperature < 0 || c.temperature > 1 then
      Except.error "Anthropic temperature must be between 0 and 1"
    else
      Except.ok ()
  | none => Except.ok ()

/-- `Validate for AIProviderSettings`: the openai check, then the
anthropic check. -/
def AIProviderSettings.validate (a : AIProviderSettings) : Except String Unit :=
  match a.openai with
  | some c =>
    if c.temperature < 0 || c.temperature > 1 then
      Except.error "OpenAI temperature must be between 0 and 1"
    else
      a.validateAnthropicPart
  | none => a.validateAnthropicPart

/-- `Validate for Settings`: preferences first, then providers. -/
def Settings.validate (s : Settings) : Except String Unit :=
  match s.preferences.validate with
  | Except.error e => Except.error e
  | Except.ok _ => s.ai_providers.validate

/-! ## JSON trees (the serde_json value level) -/

/-- JSON values as trees; numbers carry the exact rational they denote
(serde_json's shortest-form printing and parsing is exact on the values
this schema serializes). -/
inductive Json where
  | null
  | bool (b : Bool)
  | num (q : Rat)
  | str (s : String)
  | arr (xs : List Json)
  | obj (fields : List (String × Json))
deriving Repr

/-- Field lookup in a JSON object, by name (serde's derived deserializers
consume struct fields by name). -/
def Json.lookupField : Json → String → Option Json
  | Json.obj fs, name => fs.lookup name
  | _, _ => none

/-- Expect a JSON string. -/
def Json.asStr : Json → Option String
  | Json.str s => some s
  | _ => none

/-- Expect a JSON number that is an integer in the `u32` range
(serde_json rejects fractional or out-of-range numbers for `u32`).
The range check is stated on `toNat`, which for a non-negative numerator
is the same bound as on the integer itself. -/
def Json.asU32 : Json → Option Nat
  | Json.num q =>
    if q.den = 1 ∧ 0 ≤ q.num ∧ q.num.toNat < 4294967296 then some q.num.toNat else none
  | _ => none

/-- Expect a JSON number (the `f32` deserialization accepts any number). -/
def Json.asNum : Json → Option Rat
  | Json.num q => some q
  | _ => none

/-! ## Serialization (derived `Serialize`/`Deserialize` impls) -/

/-- `Theme` serialization: lowercase variant names. -/
def Theme.toJson : Theme → Json
  | Theme.Light => Json.str "light"
  | Theme.Dark => Json.str "dark"
  | Theme.System => Json.str "system"

/-- `Theme` deserialization: exactly the three lowercase names. -/
def Theme.fromJson : Json → Option Theme
  | Json.str "light" => some Theme.Light
  | Json.str "dark" => some Theme.Dark
  | Json.str "system" => some Theme.System
  | _ => none

/-- `StartupBehavior` serialization: lowercase variant names. -/
def StartupBehavior.toJson : StartupBehavior → Json
  | StartupBehavior.Normal => Json.str "normal"
  | StartupBehavior.Minimized => Json.str "minimized"
  | StartupBehavior.Hidden => Json.str "hidden"

/-- `StartupBehavior` deserialization: exactly the three lowercase names. -/
def StartupBehavior.fromJson : Json → Option StartupBehavior
  | Json.str "normal" => some StartupBehavior.Normal
  | Json.str "minimized" => some StartupBehavior.Minimized
  | Json.str "hidden" => some StartupBehavior.Hidden
  | _ => none

/-- `HashMap<String, String>` serialization: a JSON object, one field per
entry (iteration order is the list order of the embedding). -/
def strMapToJson (m : List (String × String)) : Json :=
  Json.obj (m.map (fun p => (p.1, Json.str p.2)))

/-- The map visitor's loop: each field value must be a string; the first
non-string value fails the whole parse. -/
def strFieldsFromJson : List (String × Json) → Option (List (String × String))
  | [] => some []
  | p :: rest =>
    match Json.asStr p.2 with
    | some v => (strFieldsFromJson rest).map (fun r => (p.1, v) :: r)
    | none => none

/-- `HashMap<String, String>` deserialization: every field value must be a
string. -/
def strMapFromJson : Json → Option (List (String × String))
  | Json.obj fs => strFieldsFromJson fs
  | _ => none

/-- `KeyboardShortcuts` serialization, fields in declaration order. -/
def KeyboardShortcuts.toJson (k : KeyboardShortcuts) : Json :=
  Json.obj
    [("toggle_window", Json.str k.toggle_window),
     ("clear_conversation", Json.str k.clear_conversation),
     ("new_conversation", Json.str k.new_conversation),
     ("custom_shortcuts", strMapToJson k.custom_shortcuts)]

/-- `KeyboardShortcuts` deserialization: required named fields. -/
def KeyboardShortcuts.fromJson (j : Json) : Option KeyboardShortcuts := do
  let tw ← (j.lookupField "toggle_window").bind Json.asStr
  let cc ← (j.lookupField "clear_conversation").bind Json.asStr
  let nc ← (j.lookupField "new_conversation").bind Json.asStr
  let cs ← (j.lookupField "custom_shortcuts").bind strMapFromJson
  pure ⟨tw, cc, nc, cs⟩

/-- `OpenAIConfig` serialization. -/
def OpenAIConfig.toJson (c : OpenAIConfig) : Json :=
  Json.obj
    [("model", Json.str c.model),
     ("temperature", Json.num c.temperature),
     ("max_tokens", Json.num (c.max_tokens : Rat))]

/-- `OpenAIConfig` deserialization. -/
def OpenAIConfig.fromJson (j : Json) : Option OpenAIConfig := do
  let m ← (j.lookupField "model").bind Json.asStr
  let t ← (j.lookupField "temperature").bind Json.asNum
  let mt ← (j.lookupField "max_tokens").bind Json.asU32
  pure ⟨m, t, mt⟩

/-- `AnthropicConfig` serialization. -/
def AnthropicConfig.toJson (c : AnthropicConfig) : Json :=
  Json.obj
    [("model", Json.str c.model),
     ("temperature", Json.num c.temperature),
     ("max_tokens", Json.num (c.max_tokens : Rat))]

/-- `AnthropicConfig` deserialization. -/
def AnthropicConfig.fromJson (j : Json) : Option AnthropicConfig := do
  let m ← (j.lookupField "model").bind Json.asStr
  let t ← (j.lookupField "temperature").bind Json.asNum
  let mt ← (j.lookupField "max_tokens").bind Json.asU32
  pure ⟨m, t, mt⟩

/-- serde `Option<T>` field serialization: `None` is emitted as `null`. -/
def optToJson (f : α → Json) : Option α → Json
  | none => Json.null
  | some a => f a

/-- Whether a JSON value is `null`. -/
def Json.isNull : Json → Bool
  | Json.null => true
  | _ => false

/-- serde `Option<T>` field deserialization: a missing field or `null`
is `None`; any other value must parse as `T`. -/
def optFromJson (f : Json → Option α) : Option Json → Option (Option α)
  | none => some none
  | some j => if j.isNull then some none else (f j).map some

/-- `AIProviderSettings` serialization. -/
def AIProviderSettings.toJson (a : AIProviderSettings) : Json :=
  Json.obj
    [("openai", optToJson OpenAIConfig.toJson a.openai),
     ("anthropic", optToJson AnthropicConfig.toJson a.anthropic)]

/-- `AIProviderSettings` deserialization. -/
def AIProviderSettings.fromJson (j : Json) : Option AIProviderSettings := do
  let o ← optFromJson OpenAIConfig.fromJson (j.lookupField "openai")
  let a ← optFromJson AnthropicConfig.fromJson (j.lookupField "anthropic")
  pure ⟨o, a⟩

/-- `AppPreferences` serialization. -/
def AppPreferences.toJson (p : AppPreferences) : Json :=
  Json.obj
    [("window_width", Json.num (p.window_width : Rat)),
     ("window_height", Json.num (p.window_height : Rat)),
     ("theme", p.theme.toJson),
     ("startup_behavior", p.startup_behavior.toJson),
     ("keyboard_shortcuts", p.keyboard_shortcuts.toJson)]

/-- `AppPreferences` deserialization. -/
def AppPreferences.fromJson (j : Json) : Option AppPreferences := do
  let w ← (j.lookupField "window_width").bind Json.asU32
  let h ← (j.lookupField "window_height").bind Json.asU32
  let t ← (j.lookupField "theme").bind Theme.fromJson
  let sb ← (j.lookupField "startup_behavior").bind StartupBehavior.fromJson
  let ks ← (j.lookupField "keyboard_shortcuts").bind KeyboardShortcuts.fromJson
  pure ⟨w, h, t, sb, ks⟩

/-- `Settings` serialization: the document written to settings.json. -/
def Settings.toJson (s : Settings) : Json :=
  Json.obj
    [("preferences", s.preferences.toJson),
     ("ai_providers", s.ai_providers.toJson)]

/-- `Settings` deserialization: the parse performed by
`SettingsManager::new` on an existing settings file. -/
def Settings.fromJson (j : Json) : Option Settings := do
  let p ← (j.lookupField "preferences").bind AppPreferences.fromJson
  let a ← (j.lookupField "ai_providers").bind AIProviderSettings.fromJson
  pure ⟨p, a⟩

/-- The `u32` range bound the Rust types guarantee for every field the
schema stores as `u32`. -/
def Settings.u32Bounded (s : Settings) : Prop :=
  s.preferences.window_width < 4294967296 ∧
  s.preferences.window_height < 4294967296 ∧
  (∀ c, s.ai_providers.openai = some c → c.max_tokens < 4294967296) ∧
  (∀ c, s.ai_providers.anthropic = some c → c.max_tokens < 4294967296)

/-! ## Errors (settings/error.rs, commands/mod.rs) -/

/-- The `keyring::Error` cases the adapter can see: `NoEntry` when no
credential is stored for the account, or a platform failure. -/
inductive KeyringError where
  | NoEntry
  | Platform (msg : String)
deriving DecidableEq, Repr

/-- `Display` of `keyring::Error` as the `thiserror` wrapper renders it. -/
def KeyringError.toStr : KeyringError → String
  | KeyringError.NoEntry => "No matching entry found in secure storage"
  | KeyringError.Platform m => m

/-- `SettingsError` enum (settings/error.rs): note that there is no
dedicated not-found variant; a missing credential arrives as
`Keyring(keyring::Error::NoEntry)`. -/
inductive SettingsError where
  | ConfigDirNotFound
  | Io (msg : String)
  | Json (msg : String)
  | Keyring (e : KeyringError)
deriving DecidableEq, Repr

/-- `Display` of `SettingsError` (the `#[error(...)]` attributes). -/
def SettingsError.toStr : SettingsError → String
  | SettingsError.ConfigDirNotFound => "Failed to access config directory"
  | SettingsError.Io m => "IO error: " ++ m
  | SettingsError.Json m => "JSON serialization error: " ++ m
  | SettingsError.Keyring e => "Keyring error: " ++ e.toStr

/-- `CommandError` enum (commands/mod.rs): the caller-facing taxonomy.
It has no `NotFound` variant. -/
inductive CommandError where
  | Window (msg : String)
  | Settings (msg : String)
  | Internal (msg : String)
  | InvalidInput (msg : String)
deriving DecidableEq, Repr

/-- `impl From<SettingsError> for CommandError`: every settings error,
whatever its kind, becomes `CommandError::Settings(e.to_string())`. -/
def fromSettingsError (e : SettingsError) : CommandError :=
  CommandError.Settings e.toStr

/-! ## File system model (tokio::fs calls made by the manager) -/

/-- The file operations `save` performs on settings files. -/
inductive FsOp where
  | write (path : String) (content : Json)
  | rename (src dst : String)
deriving Repr

/-- A file system: contents (as parsed JSON documents) by path. -/
def Fs : Type := String → Option Json

/-- Effect of one operation: `write` creates or replaces `path`;
`rename` moves `src` over `dst` (replacing any previous `dst`). -/
def applyOp (fs : Fs) : FsOp → Fs
  | FsOp.write p c => fun q => if q = p then some c else fs q
  | FsOp.rename src dst => fun q =>
    if q = dst then fs src else if q = src then none else fs q

/-- Effect of a sequence of operations, first to last. -/
def applyOps (fs : Fs) (ops : List FsOp) : Fs :=
  ops.foldl applyOp fs

/-- `<config-dir>/synapse/settings.json`. -/
def settingsFilePath : String := "synapse/settings.json"

/-- `file_path.with_extension("tmp")`: the sibling temp file. -/
def tempFilePath : String := "synapse/settings.tmp"

/-! ## SettingsManager (settings/mod.rs), with effects made explicit -/

/-- The operation sequence of `SettingsManager::save`: serialize, write
the temp sibling, then rename it over the real file. -/
def SettingsManager.saveOps (s : Settings) : List FsOp :=
  [FsOp.write tempFilePath (Settings.toJson s),
   FsOp.rename tempFilePath settingsFilePath]

/-- `SettingsManager::new`, as a function of what it observes: whether a
platform config directory resolves, and the parsed content of the settings
file if one exists (`none` = no file). The pair's second component is the
list of settings-file operations performed: `new` never writes the
settings file (it only ensures the directory exists). -/
def SettingsManager.new (configDirFound : Bool) (file : Option Json) :
    Except SettingsError Settings × List FsOp :=
  if configDirFound then
    match file with
    | some j =>
      match Settings.fromJson j with
      | some s => (Except.ok s, [])
      | none => (Except.error (SettingsError.Json "invalid settings JSON"), [])
    | none => (Except.ok Settings.default, [])
  else
    (Except.error SettingsError.ConfigDirNotFound, [])

/-- The manager's mutable state: the lock-guarded in-memory `Settings`
and the file system it persists to. -/
structure StoreState where
  mem : Settings
  fs : Fs

/-- How far a `save` run gets before an I/O failure, if any: the temp-file
write can fail, the rename can fail, or both succeed. -/
inductive SaveOutcome where
  | ok
  | failWrite (msg : String)
  | failRename (msg : String)
deriving DecidableEq, Repr

/-- `SettingsManager::save` under a given I/O outcome: returns the result
and the file system after the operations that completed. A failed write
leaves the file system untouched; a failed rename leaves the temp file
written but the real file untouched. -/
def SettingsManager.save (st : StoreState) (io : SaveOutcome) :
    Except SettingsError Unit × Fs :=
  match io with
  | SaveOutcome.ok => (Except.ok (), applyOps st.fs (SettingsManager.saveOps st.mem))
  | SaveOutcome.failWrite m => (Except.error (SettingsError.Io m), st.fs)
  | SaveOutcome.failRename m =>
    (Except.error (SettingsError.Io m),
     applyOps st.fs [FsOp.write tempFilePath (Settings.toJson st.mem)])

/-- `SettingsManager::get_settings`: a clone of the in-memory value,
no disk access. -/
def SettingsManager.get_settings (st : StoreState) : Settings :=
  st.mem

/-- `SettingsManager::update_settings`: overwrite the in-memory value
under the write lock, then `save`. The in-memory value is replaced before
the save runs, and is not rolled back when the save fails. -/
def SettingsManager.update_settings (st : StoreState) (newSettings : Settings)
    (io : SaveOutcome) : Except SettingsError Unit × StoreState :=
  let st1 : StoreState := { st with mem := newSettings }
  let r := SettingsManager.save st1 io
  (r.1, { st1 with fs := r.2 })

/-! ## Credential vault (keyring crate, as the adapter uses it) -/

/-- The vault's content: secret by account name, within the fixed
`"synapse"` service namespace. -/
def Vault : Type := List (String × String)

/-- The keyring calls the adapter can make. -/
inductive VaultCall where
  | setPassword (service account secret : String)
  | getPassword (service account : String)
  | deletePassword (service account : String)
deriving DecidableEq, Repr

/-- `SettingsManager::store_api_key`: `Entry::new("synapse", provider)`
then `set_password(key)`, which creates or overwrites the entry. Returns
the result, the vault after the call, and the calls made. -/
def SettingsManager.store_api_key (v : Vault) (provider key : String) :
    Except SettingsError Unit × Vault × List VaultCall :=
  (Except.ok (),
   (provider, key) :: v.filter (fun p => p.1 ≠ provider),
   [VaultCall.setPassword "synapse" provider key])

/-- `SettingsManager::get_api_key`: `get_password()`; the keyring returns
`Error::NoEntry` when the account has no stored secret, which arrives as
`SettingsError::Keyring(NoEntry)`. -/
def SettingsManager.get_api_key (v : Vault) (provider : String) :
    Except SettingsError String × List VaultCall :=
  match v.lookup provider with
  | some k => (Except.ok k, [VaultCall.getPassword "synapse" provider])
  | none =>
    (Except.error (SettingsError.Keyring KeyringError.NoEntry),
     [VaultCall.getPassword "synapse" provider])

/-- `SettingsManager::delete_api_key`: `delete_password()`; deleting a
missing entry fails with `Error::NoEntry`. -/
def SettingsManager.delete_api_key (v : Vault) (provider : String) :
    Except SettingsError Unit × Vault × List VaultCall :=
  match v.lookup provider with
  | some _ =>
    (Except.ok (), v.filter (fun p => p.1 ≠ provider),
     [VaultCall.deletePassword "synapse" provider])
  | none =>
    (Except.error (SettingsError.Keyring KeyringError.NoEntry), v,
     [VaultCall.deletePassword "synapse" provider])

/-! ## Facade: the command layer (commands/settings.rs) -/

/-- The provider allow-list checked by the credential commands. -/
def allowedProviders : List String := ["openai", "anthropic"]

namespace Commands

/-- `update_settings` command: validate the candidate first; a validation
failure returns `InvalidInput` without calling the manager. The triple is
(result, manager state after, settings-file operations performed). -/
def update_settings (st : StoreState) (settings : Settings) (io : SaveOutcome) :
    Except CommandError Unit × StoreState × List FsOp :=
  match Settings.validate settings with
  | Except.error e => (Except.error (CommandError.InvalidInput e), st, [])
  | Except.ok _ =>
    let r := SettingsManager.update_settings st settings io
    (r.1.mapError fromSettingsError, r.2,
     match io with
     | SaveOutcome.ok => SettingsManager.saveOps settings
     | SaveOutcome.failWrite _ => []
     | SaveOutcome.failRename _ => [FsOp.write tempFilePath (Settings.toJson settings)])

/-- `store_api_key` command: allow-list check, then the manager call.
The triple is (result, vault after, keyring calls performed). -/
def store_api_key (v : Vault) (provider key : String) :
    Except CommandError Unit × Vault × List VaultCall :=
  if !(allowedProviders.contains provider) then
    (Except.error (CommandError.InvalidInput ("Invalid provider: " ++ provider)), v, [])
  else
    let r := SettingsManager.store_api_key v provider key
    (r.1.mapError fromSettingsError, r.2.1, r.2.2)

/-- `get_api_key` command: allow-list check, then the manager call.
The pair is (result, keyring calls performed). -/
def get_api_key (v : Vault) (provider : String) :
    Except CommandError String × List VaultCall :=
  if !(allowedProviders.contains provider) then
    (Except.error (CommandError.InvalidInput ("Invalid provider: " ++ provider)), [])
  else
    let r := SettingsManager.get_api_key v provider
    (r.1.mapError fromSettingsError, r.2)

/-- `delete_api_key` command: allow-list check, then the manager call.
The triple is (result, vault after, keyring calls performed). -/
def delete_api_key (v : Vault) (provider : String) :
    Except CommandError Unit × Vault × List VaultCall :=
  if !(allowedProviders.contains provider) then
    (Except.error (CommandError.InvalidInput ("Invalid provider: " ++ provider)), v, [])
  else
    let r := SettingsManager.delete_api_key v provider
    (r.1.mapError fromSettingsError, r.2.1, r.2.2)

end Commands

/-! ## Helper lemmas: serialization round trips -/

theorem theme_roundtrip (t : Theme) : Theme.fromJson (Theme.toJson t) = some t := by
  cases t <;> rfl

theorem startup_roundtrip (b : StartupBehavior) :
    StartupBehavior.fromJson (StartupBehavior.toJson b) = some b := by
  cases b <;> rfl

theorem strMap_roundtrip (l : List (String × String)) :
    strMapFromJson (strMapToJson l) = some l := by
  induction l with
  | nil => rfl
  | cons p rest ih =>
    simp only [strMapToJson, strMapFromJson, List.map_cons, strFieldsFromJson,
      Json.asStr] at *
    simp [ih]

theorem ks_roundtrip (k : KeyboardShortcuts) :
    KeyboardShortcuts.fromJson (KeyboardShortcuts.toJson k) = some k := by
  simp [KeyboardShortcuts.fromJson, KeyboardShortcuts.toJson, Json.lookupField,
    List.lookup, Json.asStr, strMap_roundtrip]

theorem natCast_asU32 (n : Nat) (h : n < 4294967296) :
    Json.asU32 (Json.num (n : Rat)) = some n := by
  have hcond : ((n : Rat)).den = 1 ∧ 0 ≤ ((n : Rat)).num ∧ ((n : Rat)).num.toNat < 4294967296 := by
    refine ⟨Rat.den_natCast n, ?_, ?_⟩ <;> rw [Rat.num_natCast] <;> omega
  simp [Json.asU32, hcond]
  omega

theorem openai_roundtrip (c : OpenAIConfig) (h : c.max_tokens < 4294967296) :
    OpenAIConfig.fromJson (OpenAIConfig.toJson c) = some c := by
  simp only [OpenAIConfig.fromJson, OpenAIConfig.toJson, Json.lookupField]
  simp [List.lookup, Json.asStr, Json.asNum, natCast_asU32 c.max_tokens h]

theorem anthropic_roundtrip (c : AnthropicConfig) (h : c.max_tokens < 4294967296) :
    AnthropicConfig.fromJson (AnthropicConfig.toJson c) = some c := by
  simp only [AnthropicConfig.fromJson, AnthropicConfig.toJson, Json.lookupField]
  simp [List.lookup, Json.asStr, Json.asNum, natCast_asU32 c.max_tokens h]

theorem json_null_isNull : Json.null.isNull = true :=
  rfl

theorem openai_toJson_not_null (c : OpenAIConfig) : (OpenAIConfig.toJson c).isNull = false :=
  rfl

theorem anthropic_toJson_not_null (c : AnthropicConfig) : (AnthropicConfig.toJson c).isNull = false :=
  rfl

theorem providers_roundtrip (a : AIProviderSettings)
    (ho : ∀ c, a.openai = some c → c.max_tokens < 4294967296)
    (ha : ∀ c, a.anthropic = some c → c.max_tokens < 4294967296) :
    AIProviderSettings.fromJson (AIProviderSettings.toJson a) = some a := by
  obtain ⟨o, an⟩ := a
  cases o with
  | none =>
    cases an with
    | none => rfl
    | some c =>
      simp only [AIProviderSettings.fromJson, AIProviderSettings.toJson, optToJson,
        Json.lookupField]
      simp [List.lookup, optFromJson, json_null_isNull, anthropic_toJson_not_null,
        anthropic_roundtrip c (ha c rfl)]
  | some c =>
    cases an with
    | none =>
      simp only [AIProviderSettings.fromJson, AIProviderSettings.toJson, optToJson,
        Json.lookupField]
      simp [List.lookup, optFromJson, json_null_isNull, openai_toJson_not_null,
        openai_roundtrip c (ho c rfl)]
    | some c2 =>
      simp only [AIProviderSettings.fromJson, AIProviderSettings.toJson, optToJson,
        Json.lookupField]
      simp [List.lookup, optFromJson, openai_toJson_not_null, anthropic_toJson_not_null,
        openai_roundtrip c (ho c rfl), anthropic_roundtrip c2 (ha c2 rfl)]

theorem prefs_roundtrip (p : AppPreferences)
    (hw : p.window_width < 4294967296) (hh : p.window_height < 4294967296) :
    AppPreferences.fromJson (AppPreferences.toJson p) = some p := by
  simp only [AppPreferences.fromJson, AppPreferences.toJson, Json.lookupField]
  simp [List.lookup, natCast_asU32 _ hw, natCast_asU32 _ hh, theme_roundtrip,
    startup_roundtrip, ks_roundtrip]

theorem settings_parse_roundtrip (s : Settings) (h : s.u32Bounded) :
    Settings.fromJson (Settings.toJson s) = some s := by
  obtain ⟨hw, hh, ho, ha⟩ := h
  simp only [Settings.fromJson, Settings.toJson, Json.lookupField]
  simp [List.lookup, prefs_roundtrip _ hw hh, providers_roundtrip _ ho ha]

/-! ## Helper lemmas: what the validator accepts -/

/-- A shortcut string contains a recognized modifier token: the source's
`validate_shortcut` recognizes exactly `"CommandOrControl"` and `"Alt"`. -/
def hasModifier (s : String) : Bool :=
  strContains s "CommandOrControl" || strContains s "Alt"

theorem validate_shortcut_ok (s : String) :
    validate_shortcut s = Except.ok () ↔ hasModifier s = true := by
  unfold validate_shortcut hasModifier
  cases h1 : strContains s "CommandOrControl" <;>
    cases h2 : strContains s "Alt" <;> simp [h1, h2]

theorem validateCustomShortcuts_ok (l : List (String × String)) :
    validateCustomShortcuts l = Except.ok () ↔ ∀ p ∈ l, hasModifier p.2 = true := by
  induction l with
  | nil => simp [validateCustomShortcuts]
  | cons p rest ih =>
    simp only [validateCustomShortcuts]
    cases h : validate_shortcut p.2 with
    | error e =>
      have hp : ¬ hasModifier p.2 = true := by
        intro hm
        rw [← validate_shortcut_ok] at hm
        rw [h] at hm
        exact Except.noConfusion hm
      simp [hp]
    | ok _ =>
      have hp : hasModifier p.2 = true := (validate_shortcut_ok p.2).mp (by rw [h])
      simp [ih, hp]

theorem ks_validate_ok (k : KeyboardShortcuts) :
    k.validate = Except.ok () ↔
      (hasModifier k.toggle_window = true ∧
       hasModifier k.clear_conversation = true ∧
       hasModifier k.new_conversation = true ∧
       ∀ p ∈ k.custom_shortcuts, hasModifier p.2 = true) := by
  unfold KeyboardShortcuts.validate
  cases h1 : validate_shortcut k.toggle_window with
  | error e =>
    have : ¬ hasModifier k.toggle_window = true := by
      intro hm; rw [← validate_shortcut_ok, h1] at hm; exact Except.noConfusion hm
    simp [this]
  | ok _ =>
    have m1 : hasModifier k.toggle_window = true := (validate_shortcut_ok _).mp (by rw [h1])
    cases h2 : validate_shortcut k.clear_conversation with
    | error e =>
      have : ¬ hasModifier k.clear_conversation = true := by
        intro hm; rw [← validate_shortcut_ok, h2] at hm; exact Except.noConfusion hm
      simp [this]
    | ok _ =>
      have m2 : hasModifier k.clear_conversation = true := (validate_shortcut_ok _).mp (by rw [h2])
      cases h3 : validate_shortcut k.new_conversation with
      | error e =>
        have : ¬ hasModifier k.new_conversation = true := by
          intro hm; rw [← validate_shortcut_ok, h3] at hm; exact Except.noConfusion hm
        simp [this]
      | ok _ =>
        have m3 : hasModifier k.new_conversation = true := (validate_shortcut_ok _).mp (by rw [h3])
        simp [m1, m2, m3, validateCustomShortcuts_ok]

theorem prefs_validate_ok (p : AppPreferences) :
    p.validate = Except.ok () ↔
      (400 ≤ p.window_width ∧ 300 ≤ p.window_height ∧
       p.keyboard_shortcuts.validate = Except.ok ()) := by
  unfold AppPreferences.validate
  by_cases hw : p.window_width < 400
  · rw [if_pos hw]
    constructor
    · intro h
      exact Except.noConfusion h
    · rintro ⟨h1, -, -⟩
      exact absurd h1 (by omega)
  · rw [if_neg hw]
    by_cases hh : p.window_height < 300
    · rw [if_pos hh]
      constructor
      · intro h
        exact Except.noConfusion h
      · rintro ⟨-, h2, -⟩
        exact absurd h2 (by omega)
    · rw [if_neg hh]
      constructor
      · intro h
        exact ⟨by omega, by omega, h⟩
      · rintro ⟨-, -, h3⟩
        exact h3

theorem temp_in_range_iff (t : Rat) :
    (decide (t < 0) || decide (t > 1)) = false ↔ (0 ≤ t ∧ t ≤ 1) := by
  simp [not_lt]

theorem anthropicPart_ok (o : Option OpenAIConfig) (an : Option AnthropicConfig) :
    AIProviderSettings.validateAnthropicPart ⟨o, an⟩ = Except.ok () ↔
      (∀ c, an = some c → 0 ≤ c.temperature ∧ c.temperature ≤ 1) := by
  cases an with
  | none => simp [AIProviderSettings.validateAnthropicPart]
  | some c =>
    simp only [AIProviderSettings.validateAnthropicPart]
    cases hb : (decide (c.temperature < 0) || decide (c.temperature > 1)) with
    | false =>
      have hr := (temp_in_range_iff c.temperature).mp hb
      refine iff_of_true (by simp) ?_
      intro c2 hc2
      cases hc2
      exact hr
    | true =>
      have hr : ¬ (0 ≤ c.temperature ∧ c.temperature ≤ 1) := by
        intro hcontra
        rw [← temp_in_range_iff] at hcontra
        rw [hb] at hcontra
        exact Bool.noConfusion hcontra
      refine iff_of_false (by simp) ?_
      intro h
      exact hr (h c rfl)

theorem providers_validate_ok (a : AIProviderSettings) :
    a.validate = Except.ok () ↔
      ((∀ c, a.openai = some c → 0 ≤ c.temperature ∧ c.temperature ≤ 1) ∧
       (∀ c, a.anthropic = some c → 0 ≤ c.temperature ∧ c.temperature ≤ 1)) := by
  obtain ⟨o, an⟩ := a
  cases o with
  | none =>
    simp only [AIProviderSettings.validate]
    rw [anthropicPart_ok]
    simp
  | some c =>
    simp only [AIProviderSettings.validate]
    cases hb : (decide (c.temperature < 0) || decide (c.temperature > 1)) with
    | false =>
      have hr := (temp_in_range_iff c.temperature).mp hb
      rw [if_neg Bool.false_ne_true, anthropicPart_ok]
      constructor
      · intro h
        refine ⟨?_, h⟩
        intro c2 hc2
        cases hc2
        exact hr
      · exact fun h => h.2
    | true =>
      have hr : ¬ (0 ≤ c.temperature ∧ c.temperature ≤ 1) := by
        intro hcontra
        rw [← temp_in_range_iff] at hcontra
        rw [hb] at hcontra
        exact Bool.noConfusion hcontra
      refine iff_of_false (by simp) ?_
      rintro ⟨h1, -⟩
      exact hr (h1 c rfl)

theorem settings_validate_ok (s : Settings) :
    s.validate = Except.ok () ↔
      (s.preferences.validate = Except.ok () ∧
       s.ai_providers.validate = Except.ok ()) := by
  unfold Settings.validate
  cases h : s.preferences.validate with
  | error e =>
    constructor
    · intro hv
      exact Except.noConfusion hv
    · rintro ⟨hv, -⟩
      exact Except.noConfusion hv
  | ok u =>
    cases u
    simp

/-! ## Concrete example values used by witnesses and boundary checks -/

/-- Default settings with the given window width. -/
def widthSettings (w : Nat) : Settings :=
  { Settings.default with
    preferences := { AppPreferences.default with window_width := w } }

/-- Default settings with an OpenAI provider configured at the given
temperature. -/
def openaiTempSettings (t : Rat) : Settings :=
  { Settings.default with
    ai_providers :=
      { openai := some { model := "gpt-4", temperature := t, max_tokens := 1024 },
        anthropic := none } }

/-- Default settings with the given toggle_window shortcut. -/
def toggleSettings (sc : String) : Settings :=
  { Settings.default with
    preferences :=
      { AppPreferences.default with
        keyboard_shortcuts :=
          { KeyboardShortcuts.default with toggle_window := sc } } }

/-- A settings value exercising every schema feature: both providers
configured and an extra custom shortcut. -/
def sampleSettings : Settings where
  preferences :=
    { window_width := 1024
      window_height := 768
      theme := Theme.Dark
      startup_behavior := StartupBehavior.Minimized
      keyboard_shortcuts :=
        { toggle_window := "CommandOrControl+Shift+Space"
          clear_conversation := "CommandOrControl+L"
          new_conversation := "CommandOrControl+N"
          custom_shortcuts := [("settings", "CommandOrControl+,"), ("focus", "Alt+F")] } }
  ai_providers :=
    { openai := some { model := "gpt-4o", temperature := mkRat 7 10, max_tokens := 4096 }
      anthropic := some { model := "claude-3-5-sonnet", temperature := 1, max_tokens := 8192 } }

/-- The empty file system: no settings file on disk. -/
def emptyFs : Fs := fun _ => none

/-! ## The claims -/

/-- C10: the default `Settings` value (default preferences, default
keyboard shortcuts including the custom entry `"settings" ->
"CommandOrControl+,"`, no providers) passes `Settings::validate`, so a
fresh store initialized without an existing file holds a valid
configuration. -/
theorem default_settings_valid :
    Settings.default.validate = Except.ok () ∧
    SettingsManager.new true none = (Except.ok Settings.default, []) :=
  ⟨rfl, rfl⟩

/-- C9: `Theme` and `StartupBehavior` serialize to exactly the lowercase
strings "light"/"dark"/"system" and "normal"/"minimized"/"hidden", one
per variant, and deserialize from exactly those strings. -/
theorem enum_serialization_lowercase :
    (Theme.toJson Theme.Light = Json.str "light" ∧
     Theme.toJson Theme.Dark = Json.str "dark" ∧
     Theme.toJson Theme.System = Json.str "system" ∧
     StartupBehavior.toJson StartupBehavior.Normal = Json.str "normal" ∧
     StartupBehavior.toJson StartupBehavior.Minimized = Json.str "minimized" ∧
     StartupBehavior.toJson StartupBehavior.Hidden = Json.str "hidden") ∧
    (∀ j t, Theme.fromJson j = some t ↔ j = Theme.toJson t) ∧
    (∀ j b, StartupBehavior.fromJson j = some b ↔ j = StartupBehavior.toJson b) := by
  refine ⟨⟨rfl, rfl, rfl, rfl, rfl, rfl⟩, ?_, ?_⟩
  · intro j t
    constructor
    · intro h
      unfold Theme.fromJson at h
      split at h <;> simp_all [Theme.toJson] <;> cases h <;> rfl
    · rintro rfl
      cases t <;> rfl
  · intro j b
    constructor
    · intro h
      unfold StartupBehavior.fromJson at h
      split at h <;> simp_all [StartupBehavior.toJson] <;> cases h <;> rfl
    · rintro rfl
      cases b <;> rfl

/-- C4: on initialization, a missing settings file yields the default
`Settings` (width 800, height 600, theme System, startup Normal, default
shortcut bindings) with no settings-file write; an existing file that does
not parse as the schema is a `SerializationError` (the `Json` variant),
not a silent fallback to defaults. -/
theorem load_defaults_or_fails_on_parse :
    SettingsManager.new true none = (Except.ok Settings.default, []) ∧
    Settings.default.preferences.window_width = 800 ∧
    Settings.default.preferences.window_height = 600 ∧
    Settings.default.preferences.theme = Theme.System ∧
    Settings.default.preferences.startup_behavior = StartupBehavior.Normal ∧
    Settings.default.preferences.keyboard_shortcuts = KeyboardShortcuts.default ∧
    (∀ j, Settings.fromJson j = none →
      SettingsManager.new true (some j) =
        (Except.error (SettingsError.Json "invalid settings JSON"), [])) := by
  refine ⟨rfl, rfl, rfl, rfl, rfl, rfl, ?_⟩
  intro j h
  simp [SettingsManager.new, h]

/-- C5: `save` writes the serialized settings to the `.tmp` sibling first
and only then renames it over the real file: after any proper prefix of
its operations the real settings file is unchanged, after the full
sequence it holds the new content, and after every prefix an observer of
the settings file path sees either the fully-old or the fully-new
content. -/
theorem save_atomic_replacement (fs : Fs) (s : Settings) :
    SettingsManager.saveOps s =
      [FsOp.write tempFilePath (Settings.toJson s),
       FsOp.rename tempFilePath settingsFilePath] ∧
    applyOps fs ((SettingsManager.saveOps s).take 0) settingsFilePath = fs settingsFilePath ∧
    applyOps fs ((SettingsManager.saveOps s).take 1) settingsFilePath = fs settingsFilePath ∧
    applyOps fs (SettingsManager.saveOps s) settingsFilePath = some (Settings.toJson s) ∧
    (∀ n : Nat,
      applyOps fs ((SettingsManager.saveOps s).take n) settingsFilePath = fs settingsFilePath ∨
      applyOps fs ((SettingsManager.saveOps s).take n) settingsFilePath
        = some (Settings.toJson s)) := by
  have hne : settingsFilePath ≠ tempFilePath := by decide
  have h1 : applyOps fs ((SettingsManager.saveOps s).take 1) settingsFilePath
      = fs settingsFilePath := by
    simp [SettingsManager.saveOps, applyOps, applyOp, hne]
  have h2 : applyOps fs (SettingsManager.saveOps s) settingsFilePath
      = some (Settings.toJson s) := by
    simp [SettingsManager.saveOps, applyOps, applyOp]
  refine ⟨rfl, rfl, h1, h2, ?_⟩
  intro n
  match n with
  | 0 => exact Or.inl rfl
  | 1 => exact Or.inl h1
  | (m + 2) =>
    right
    have : (SettingsManager.saveOps s).take (m + 2) = SettingsManager.saveOps s := by
      simp [SettingsManager.saveOps]
    rw [this]
    exact h2

/-- C3: the facade's `update_settings` validates first; for a candidate
that fails validation it returns `InvalidInput` with the validator's
message, leaves the in-memory settings and the file system exactly as
they were, and performs no settings-file operation. -/
theorem update_settings_command_rejects_invalid (st : StoreState) (s : Settings)
    (io : SaveOutcome) (e : String) (h : s.validate = Except.error e) :
    Commands.update_settings st s io =
      (Except.error (CommandError.InvalidInput e), st, []) := by
  simp [Commands.update_settings, h]

/-- Witness for C3 at the concrete invalid input `window_width = 399`. -/
theorem update_settings_command_rejects_invalid_witness :
    (widthSettings 399).validate = Except.error "Window width must be at least 400 pixels" ∧
    Commands.update_settings ⟨Settings.default, emptyFs⟩ (widthSettings 399) SaveOutcome.ok =
      (Except.error (CommandError.InvalidInput "Window width must be at least 400 pixels"),
       ⟨Settings.default, emptyFs⟩, []) :=
  ⟨rfl, update_settings_command_rejects_invalid ⟨Settings.default, emptyFs⟩
    (widthSettings 399) SaveOutcome.ok "Window width must be at least 400 pixels" rfl⟩

/-- C8: `update_settings` replaces the in-memory value wholesale before
saving; its result is exactly the save's result, so a failed write or
rename surfaces an `Io` error while the in-memory settings keep the newly
supplied value (no rollback), and `get_settings` then observes the new
value. -/
theorem update_settings_no_rollback (st : StoreState) (newS : Settings) (io : SaveOutcome) :
    (SettingsManager.update_settings st newS io).2.mem = newS ∧
    SettingsManager.get_settings (SettingsManager.update_settings st newS io).2 = newS ∧
    (SettingsManager.update_settings st newS io).1 =
      (SettingsManager.save ⟨newS, st.fs⟩ io).1 ∧
    (io = SaveOutcome.ok → (SettingsManager.update_settings st newS io).1 = Except.ok ()) ∧
    (∀ m, io = SaveOutcome.failWrite m →
      (SettingsManager.update_settings st newS io).1 = Except.error (SettingsError.Io m)) ∧
    (∀ m, io = SaveOutcome.failRename m →
      (SettingsManager.update_settings st newS io).1 = Except.error (SettingsError.Io m)) := by
  cases io <;>
    simp [SettingsManager.update_settings, SettingsManager.save,
      SettingsManager.get_settings]

/-- C6: each credential command checks the allow-list `{"openai",
"anthropic"}` first; for any other provider it fails with `InvalidInput`
naming the provider, leaves the vault unchanged, and performs no keyring
call. -/
theorem invalid_provider_rejected (v : Vault) (provider key : String)
    (h : provider ∉ allowedProviders) :
    Commands.store_api_key v provider key =
      (Except.error (CommandError.InvalidInput ("Invalid provider: " ++ provider)), v, []) ∧
    Commands.get_api_key v provider =
      (Except.error (CommandError.InvalidInput ("Invalid provider: " ++ provider)), []) ∧
    Commands.delete_api_key v provider =
      (Except.error (CommandError.InvalidInput ("Invalid provider: " ++ provider)), v, []) := by
  have hc : allowedProviders.contains provider = false := by
    simpa [allowedProviders] using h
  simp [Commands.store_api_key, Commands.get_api_key, Commands.delete_api_key, hc, h]

/-- Witness for C6 at the concrete provider "unknown-provider". -/
theorem invalid_provider_rejected_witness :
    "unknown-provider" ∉ allowedProviders ∧
    Commands.store_api_key [] "unknown-provider" "x" =
      (Except.error (CommandError.InvalidInput "Invalid provider: unknown-provider"), [], []) ∧
    Commands.get_api_key [] "unknown-provider" =
      (Except.error (CommandError.InvalidInput "Invalid provider: unknown-provider"), []) ∧
    Commands.delete_api_key [] "unknown-provider" =
      (Except.error (CommandError.InvalidInput "Invalid provider: unknown-provider"), [], []) :=
  ⟨by decide, invalid_provider_rejected [] "unknown-provider" "x" (by decide)⟩

/-- C7 counterexample: on an allow-listed provider with no stored
credential, the facade does not return a `NotFound` error kind: the
caller-facing `CommandError` taxonomy has no such kind, and the keyring
`NoEntry` failure is surfaced as the generic `Settings` kind — the very
same constructor to which every other settings error (for example an I/O
failure) is mapped. -/
theorem get_api_key_missing_not_notfound_kind :
    (Commands.get_api_key [] "openai").1 =
      Except.error (CommandError.Settings
        "Keyring error: No matching entry found in secure storage") ∧
    (Commands.delete_api_key [] "openai").1 =
      Except.error (CommandError.Settings
        "Keyring error: No matching entry found in secure storage") ∧
    fromSettingsError (SettingsError.Keyring KeyringError.NoEntry) =
      CommandError.Settings "Keyring error: No matching entry found in secure storage" ∧
    fromSettingsError (SettingsError.Io "vault access denied") =
      CommandError.Settings "IO error: vault access denied" :=
  ⟨rfl, rfl, rfl, rfl⟩

/-- C7 (amended): on an allow-listed provider with no stored credential,
`get_api_key` and `delete_api_key` do fail — with the keyring `NoEntry`
error wrapped as `CommandError.Settings`, never a silent empty value —
after performing exactly one keyring call. -/
theorem missing_credential_surfaces_noentry_error (v : Vault) (provider : String)
    (hp : provider ∈ allowedProviders) (hm : v.lookup provider = none) :
    Commands.get_api_key v provider =
      (Except.error (CommandError.Settings
        "Keyring error: No matching entry found in secure storage"),
       [VaultCall.getPassword "synapse" provider]) ∧
    Commands.delete_api_key v provider =
      (Except.error (CommandError.Settings
        "Keyring error: No matching entry found in secure storage"),
       v, [VaultCall.deletePassword "synapse" provider]) := by
  have hc : allowedProviders.contains provider = true := by
    simpa [allowedProviders] using hp
  simp [Commands.get_api_key, Commands.delete_api_key, SettingsManager.get_api_key,
    SettingsManager.delete_api_key, hc, hm, hp, fromSettingsError, SettingsError.toStr,
    KeyringError.toStr, Except.mapError]

/-- Witness for the amended C7 at provider "openai" and the empty vault. -/
theorem missing_credential_surfaces_noentry_error_witness :
    "openai" ∈ allowedProviders ∧
    ([] : Vault).lookup "openai" = none ∧
    Commands.get_api_key [] "openai" =
      (Except.error (CommandError.Settings
        "Keyring error: No matching entry found in secure storage"),
       [VaultCall.getPassword "synapse" "openai"]) ∧
    Commands.delete_api_key [] "openai" =
      (Except.error (CommandError.Settings
        "Keyring error: No matching entry found in secure storage"),
       [], [VaultCall.deletePassword "synapse" "openai"]) := by
  refine ⟨by decide, rfl, ?_⟩
  have h := missing_credential_surfaces_noentry_error [] "openai" (by decide) rfl
  exact h

/-- C2: `Settings::validate` accepts a value exactly when the window width
is at least 400, the height at least 300, every configured provider
temperature lies in [0, 1], and every shortcut string — the three fixed
actions and every custom entry — contains a recognized modifier token
(`"CommandOrControl"` or `"Alt"`); at the boundaries, width 399,
temperature 1.01 and shortcut "T" are rejected while width 400,
temperature 1.0 and "CommandOrControl+T" are accepted. -/
theorem validate_characterization (s : Settings) :
    (s.validate = Except.ok () ↔
      (400 ≤ s.preferences.window_width ∧
       300 ≤ s.preferences.window_height ∧
       (∀ c, s.ai_providers.openai = some c → 0 ≤ c.temperature ∧ c.temperature ≤ 1) ∧
       (∀ c, s.ai_providers.anthropic = some c → 0 ≤ c.temperature ∧ c.temperature ≤ 1) ∧
       hasModifier s.preferences.keyboard_shortcuts.toggle_window = true ∧
       hasModifier s.preferences.keyboard_shortcuts.clear_conversation = true ∧
       hasModifier s.preferences.keyboard_shortcuts.new_conversation = true ∧
       (∀ p ∈ s.preferences.keyboard_shortcuts.custom_shortcuts,
         hasModifier p.2 = true))) ∧
    (widthSettings 399).validate = Except.error "Window width must be at least 400 pixels" ∧
    (widthSettings 400).validate = Except.ok () ∧
    mkRat 101 100 = 1.01 ∧
    (openaiTempSettings (mkRat 101 100)).validate =
      Except.error "OpenAI temperature must be between 0 and 1" ∧
    (openaiTempSettings 1).validate = Except.ok () ∧
    (toggleSettings "T").validate = Except.error "Invalid shortcut format: T" ∧
    (toggleSettings "CommandOrControl+T").validate = Except.ok () := by
  refine ⟨?_, rfl, rfl, by norm_num [Rat.mkRat_eq_div], rfl, rfl, rfl, rfl⟩
  rw [settings_validate_ok, prefs_validate_ok, ks_validate_ok, providers_validate_ok]
  tauto

/-- C1: saving a settings value (serialize, write the temp sibling, rename
it over the settings file, as `save` does) and then loading the resulting
file back (parse as `SettingsManager::new` does) yields the settings value
unchanged, field for field — for every value within the `u32` ranges the
Rust types guarantee. -/
theorem settings_save_load_roundtrip (s : Settings) (fs : Fs) (h : s.u32Bounded) :
    applyOps fs (SettingsManager.saveOps s) settingsFilePath = some (Settings.toJson s) ∧
    SettingsManager.new true (applyOps fs (SettingsManager.saveOps s) settingsFilePath) =
      (Except.ok s, []) := by
  have hfile : applyOps fs (SettingsManager.saveOps s) settingsFilePath
      = some (Settings.toJson s) := by
    simp [SettingsManager.saveOps, applyOps, applyOp]
  refine ⟨hfile, ?_⟩
  rw [hfile]
  simp [SettingsManager.new, settings_parse_roundtrip s h]

/-- Witness for C1 at a concrete settings value with both providers
configured and a second custom shortcut. -/
theorem settings_save_load_roundtrip_witness :
    sampleSettings.u32Bounded ∧
    SettingsManager.new true
      (applyOps emptyFs (SettingsManager.saveOps sampleSettings) settingsFilePath) =
      (Except.ok sampleSettings, []) := by
  have hb : sampleSettings.u32Bounded := by
    refine ⟨by decide, by decide, ?_, ?_⟩
    · intro c hc
      have hc2 : some (OpenAIConfig.mk "gpt-4o" (mkRat 7 10) 4096) = some c := hc
      injection hc2 with h3
      subst h3
      decide
    · intro c hc
      have hc2 : some (AnthropicConfig.mk "claude-3-5-sonnet" 1 8192) = some c := hc
      injection hc2 with h3
      subst h3
      decide
  exact ⟨hb, (settings_save_load_roundtrip sampleSettings emptyFs hb).2⟩

end Synapse
